import Mathlib

/-!
Verification of `src/app/frontend/src/components/Example/ExampleList.tsx`
from the repository `jazzpujols34/Weblink-Chatbot-with-AOAI`.

The file defines a constant array `EXAMPLES` of `{ text, value }` records
and a component `ExampleList` that maps the array, with index, to a list
of `<li key={i}>` items each containing an `Example` child with props
`text`, `value` and `onClick={onExampleClicked}`.

The embedding below keeps the callback abstract (a value of an arbitrary
type `κ`); a rendered item records its `key` and the props handed to the
`Example` child.  The `Example` child component's own source is not part
of the excerpt, so its observable behaviour (what it displays, what a
click does) is modelled from the specification.
-/

/-- The `ExampleModel` record type of the source: a display string `text`
and a callback argument string `value`. -/
structure ExampleModel where
  text : String
  value : String
deriving DecidableEq, Repr

/-- The constant `EXAMPLES` array of the source, verbatim. -/
def EXAMPLES : List ExampleModel :=
  [ { text := "請告訴我展碁國際的公司概況", value := "請告訴我展碁國際的公司概況" },
    { text := "展碁國際的核心價值?", value := "展碁國際的核心價值?" },
    { text := "展碁國際的負責人是?", value := "展碁國際的負責人是?" } ]

/-- The props passed to one `Example` child: `text`, `value`, `onClick`.
The callback is kept abstract as a value of type `κ`. -/
structure ExampleProps (κ : Type) where
  text : String
  value : String
  onClick : κ
deriving DecidableEq, Repr

/-- One rendered `<li>` item: its `key` attribute and the `Example`
child it wraps. -/
structure ListItem (κ : Type) where
  key : Nat
  child : ExampleProps κ
deriving DecidableEq, Repr

/-- The body of `ExampleList`, with the collection generalised: the
source's `entries.map((x, i) => <li key={i}><Example text={x.text}
value={x.value} onClick={onExampleClicked} /></li>)`. -/
def renderItems {κ : Type} (entries : List ExampleModel) (onExampleClicked : κ) :
    List (ListItem κ) :=
  entries.enum.map fun p =>
    { key := p.1,
      child := { text := p.2.text, value := p.2.value, onClick := onExampleClicked } }

/-- The `ExampleList` component of the source: `renderItems` applied to
the fixed `EXAMPLES` collection. -/
def ExampleList (κ : Type) (onExampleClicked : κ) : List (ListItem κ) :=
  renderItems EXAMPLES onExampleClicked

/-- Modelled from the spec: the `Example` child component (its source
file `Example.tsx` is not part of the excerpt) invokes, when activated,
its `onClick` callback exactly once with its `value`.  Activating a
rendered item is therefore embedded as the call log it produces: a list
of (callback, argument) pairs, here the one-element log
`[(onClick, value)]`. -/
def activate {κ : Type} (item : ListItem κ) : List (κ × String) :=
  [(item.child.onClick, item.child.value)]

/-- Modelled from the spec: the `Example` child component (source not in
the excerpt) displays its `text` prop; the text shown by a rendered item
is therefore its child's `text`. -/
def displayedText {κ : Type} (item : ListItem κ) : String :=
  item.child.text

/-- Runtime state of the component: the module-level `EXAMPLES` constant
together with the currently rendered list.  The source keeps no other
state (no hooks, no mutable fields). -/
structure ComponentState (κ : Type) where
  examples : List ExampleModel
  rendered : List (ListItem κ)
deriving Repr

/-- The two UI events the component can receive: a re-render, and a
click on the item at position `i`. -/
inductive UIEvent where
  | rerender : UIEvent
  | click : Nat → UIEvent
deriving DecidableEq, Repr

/-- Initial state: the constant collection and a first render. -/
def initState (κ : Type) (cb : κ) : ComponentState κ :=
  { examples := EXAMPLES, rendered := renderItems EXAMPLES cb }

/-- One step of the component.  A re-render recomputes the rendered list
from the (unchanged) collection; a click on position `i` produces the
call log of the clicked item and, the source having no mutable state,
leaves the state untouched. -/
def stepEvent {κ : Type} (cb : κ) (s : ComponentState κ) :
    UIEvent → ComponentState κ × List (κ × String)
  | UIEvent.rerender => ({ s with rendered := renderItems s.examples cb }, [])
  | UIEvent.click i =>
      match s.rendered[i]? with
      | some it => (s, activate it)
      | none => (s, [])

/-- Run a sequence of UI events from a state. -/
def runEvents {κ : Type} (cb : κ) (s : ComponentState κ) : List UIEvent → ComponentState κ
  | [] => s
  | e :: es => runEvents cb (stepEvent cb s e).1 es

/-! ### Helper lemmas -/

theorem renderItems_length {κ : Type} (entries : List ExampleModel) (cb : κ) :
    (renderItems entries cb).length = entries.length := by
  simp [renderItems]

theorem renderItems_getElem? {κ : Type} (entries : List ExampleModel) (cb : κ) (i : Nat) :
    (renderItems entries cb)[i]? =
      entries[i]?.map fun e =>
        { key := i, child := { text := e.text, value := e.value, onClick := cb } } := by
  simp [renderItems, List.getElem?_map, List.getElem?_enum]
  cases entries[i]? <;> rfl

theorem stepEvent_examples {κ : Type} (cb : κ) (s : ComponentState κ) (e : UIEvent) :
    ((stepEvent cb s e).1).examples = s.examples := by
  cases e with
  | rerender => rfl
  | click i =>
      cases h : s.rendered[i]? <;> simp [stepEvent, h]

theorem runEvents_examples {κ : Type} (cb : κ) (s : ComponentState κ)
    (events : List UIEvent) :
    (runEvents cb s events).examples = s.examples := by
  induction events generalizing s with
  | nil => rfl
  | cons e es ih =>
      show (runEvents cb (stepEvent cb s e).1 es).examples = s.examples
      rw [ih, stepEvent_examples]

theorem mem_renderItems {κ : Type} (entries : List ExampleModel) (cb : κ)
    (it : ListItem κ) (hit : it ∈ renderItems entries cb) :
    it.child.onClick = cb := by
  simp only [renderItems, List.mem_map] at hit
  obtain ⟨p, _, rfl⟩ := hit
  rfl

/-! ### Claim theorems -/

/-- Claim C1: for every index `i` into the example collection and every
caller-supplied callback, activating the `i`-th rendered item invokes
that callback exactly once, with argument `EXAMPLES[i].value`, and every
call in the log carries that callback and that value (so no other
entry's value is ever passed). -/
theorem exampleList_activate_ith (κ : Type) (cb : κ) (i : Nat)
    (item : ListItem κ) (entry : ExampleModel)
    (hitem : (ExampleList κ cb)[i]? = some item)
    (hentry : EXAMPLES[i]? = some entry) :
    activate item = [(cb, entry.value)] ∧
    (activate item).length = 1 ∧
    ∀ c ∈ activate item, c.1 = cb ∧ c.2 = entry.value := by
  rw [ExampleList, renderItems_getElem?, hentry] at hitem
  simp only [Option.map_some'] at hitem
  injection hitem with h
  subst h
  refine ⟨rfl, rfl, ?_⟩
  intro c hc
  simp only [activate, List.mem_singleton] at hc
  subst hc
  exact ⟨rfl, rfl⟩

/-- Witness for C1 at `i = 1` with callback `0 : Nat`. -/
theorem exampleList_activate_ith_witness :
    activate (⟨1, ⟨"展碁國際的核心價值?", "展碁國際的核心價值?", 0⟩⟩ : ListItem Nat)
      = [(0, "展碁國際的核心價值?")] :=
  (exampleList_activate_ith Nat 0 1
    ⟨1, ⟨"展碁國際的核心價值?", "展碁國際的核心價值?", 0⟩⟩
    ⟨"展碁國際的核心價值?", "展碁國際的核心價值?"⟩ rfl rfl).1

/-- Claim C2: for every collection of `N` entries, the renderer produces
exactly `N` items, and the `i`-th item is built from the `i`-th entry
(count and insertion order preserved). -/
theorem renderItems_count_and_order (κ : Type) (cb : κ)
    (entries : List ExampleModel) :
    (renderItems entries cb).length = entries.length ∧
    ∀ i : Nat, (renderItems entries cb)[i]? =
      entries[i]?.map fun e =>
        { key := i, child := { text := e.text, value := e.value, onClick := cb } } :=
  ⟨renderItems_length entries cb, fun i => renderItems_getElem? entries cb i⟩

/-- Claim C3: the text displayed by the `i`-th rendered item equals the
`text` field of the `i`-th collection entry. -/
theorem exampleList_displayedText_ith (κ : Type) (cb : κ) (i : Nat)
    (item : ListItem κ) (entry : ExampleModel)
    (hitem : (ExampleList κ cb)[i]? = some item)
    (hentry : EXAMPLES[i]? = some entry) :
    displayedText item = entry.text := by
  rw [ExampleList, renderItems_getElem?, hentry] at hitem
  simp only [Option.map_some'] at hitem
  injection hitem with h
  subst h
  rfl

/-- Witness for C3 at `i = 0` with callback `0 : Nat`. -/
theorem exampleList_displayedText_ith_witness :
    displayedText
      (⟨0, ⟨"請告訴我展碁國際的公司概況", "請告訴我展碁國際的公司概況", 0⟩⟩ : ListItem Nat)
      = "請告訴我展碁國際的公司概況" :=
  exampleList_displayedText_ith Nat 0 0
    ⟨0, ⟨"請告訴我展碁國際的公司概況", "請告訴我展碁國際的公司概況", 0⟩⟩
    ⟨"請告訴我展碁國際的公司概況", "請告訴我展碁國際的公司概況"⟩ rfl rfl

/-- Claim C4: with the concrete constant collection, the renderer yields
exactly the three items in order, and activating the second one calls
the callback exactly once with "展碁國際的核心價值?". -/
theorem exampleList_concrete_scenario :
    ExampleList Nat 0 =
      [ ⟨0, ⟨"請告訴我展碁國際的公司概況", "請告訴我展碁國際的公司概況", 0⟩⟩,
        ⟨1, ⟨"展碁國際的核心價值?", "展碁國際的核心價值?", 0⟩⟩,
        ⟨2, ⟨"展碁國際的負責人是?", "展碁國際的負責人是?", 0⟩⟩ ] ∧
    (ExampleList Nat 0).length = 3 ∧
    ((ExampleList Nat 0)[1]?).map activate = some [(0, "展碁國際的核心價值?")] :=
  ⟨rfl, rfl, rfl⟩

/-- Claim C5: rendering is deterministic — the same collection and the
same callback yield the same output structure. -/
theorem exampleList_deterministic (κ : Type) (cb₁ cb₂ : κ) (hcb : cb₁ = cb₂) :
    ExampleList κ cb₁ = ExampleList κ cb₂ := by
  rw [hcb]

/-- Witness for C5 with callback `0 : Nat`. -/
theorem exampleList_deterministic_witness :
    ExampleList Nat 0 = ExampleList Nat 0 :=
  exampleList_deterministic Nat 0 0 rfl

/-- Claim C6: the example collection has exactly three entries, is
non-empty, and after any sequence of renders and clicks it still equals
its initial value. -/
theorem examples_constant_invariant (κ : Type) (cb : κ) (events : List UIEvent) :
    EXAMPLES.length = 3 ∧ 0 < EXAMPLES.length ∧
    (runEvents cb (initState κ cb) events).examples = EXAMPLES :=
  ⟨rfl, Nat.zero_lt_succ _, runEvents_examples cb (initState κ cb) events⟩

/-- Claim C7: every entry of the constant collection has `text` equal to
`value`. -/
theorem examples_text_eq_value : ∀ e ∈ EXAMPLES, e.text = e.value := by
  decide

/-- Witness for C7 at the second entry. -/
theorem examples_text_eq_value_witness :
    (⟨"展碁國際的核心價值?", "展碁國際的核心價值?"⟩ : ExampleModel).text =
    (⟨"展碁國際的核心價值?", "展碁國際的核心價值?"⟩ : ExampleModel).value :=
  examples_text_eq_value ⟨"展碁國際的核心價值?", "展碁國際的核心價值?"⟩ (by decide)

/-- Claim C8: a click on position `i` leaves the rendered list — hence
every other item — exactly as it was before the click. -/
theorem click_preserves_rendered (κ : Type) (cb : κ) (s : ComponentState κ) (i : Nat) :
    ((stepEvent cb s (UIEvent.click i)).1).rendered = s.rendered ∧
    ∀ j : Nat, ((stepEvent cb s (UIEvent.click i)).1).rendered[j]? = s.rendered[j]? := by
  have h : (stepEvent cb s (UIEvent.click i)).1 = s := by
    cases hh : s.rendered[i]? <;> simp [stepEvent, hh]
  rw [h]
  exact ⟨rfl, fun j => rfl⟩

/-- Claim C9: the keys of the rendered items are exactly `0, 1, ...,
N-1` in order, hence pairwise distinct. -/
theorem exampleList_keys (κ : Type) (cb : κ) :
    (ExampleList κ cb).map ListItem.key = List.range EXAMPLES.length ∧
    ((ExampleList κ cb).map ListItem.key).Nodup := by
  have h : (ExampleList κ cb).map ListItem.key = List.range EXAMPLES.length := rfl
  exact ⟨h, h ▸ List.nodup_range _⟩

/-- Claim C10: every rendered item carries the caller-supplied callback
itself as its `onClick` — no wrapping or substitution. -/
theorem exampleList_forwards_callback (κ : Type) (cb : κ) (it : ListItem κ)
    (hit : it ∈ ExampleList κ cb) :
    it.child.onClick = cb :=
  mem_renderItems EXAMPLES cb it hit

/-- Witness for C10 at the first rendered item with callback `0 : Nat`. -/
theorem exampleList_forwards_callback_witness :
    (⟨0, ⟨"請告訴我展碁國際的公司概況", "請告訴我展碁國際的公司概況", 0⟩⟩
      : ListItem Nat).child.onClick = 0 :=
  exampleList_forwards_callback Nat 0
    ⟨0, ⟨"請告訴我展碁國際的公司概況", "請告訴我展碁國際的公司概況", 0⟩⟩
    (by decide)
